import Mathlib

/-!
Verification development for the blobstream rollup example (`rollup.go`).

The program is a single linear pipeline `verify()` that

  1. hex-decodes a compiled-in transaction hash,
  2. connects to a Celestia RPC node (`http.New`, with `defer trpc.Stop()`),
  3. fetches the transaction and its block,
  4. computes the blob's share range (`square.BlobShareRange`),
  5. fetches and checks share proofs (`ProveShares` / `VerifyProof`),
  6. fetches a data-root inclusion proof (`DataRootInclusionProof`),
  7. dials an Ethereum client (`ethclient.Dial`, with `defer ethClient.Close()`),
  8. binds the Blobstream contract (`wrapper.NewWrappers`) and
  9. calls `VerifyDataRootInclusion`, which re-encodes the Tendermint Merkle
     proof into the contract's `BinaryMerkleProof` and calls `VerifyAttestation`.

All external collaborators (RPC node, Ethereum client, contract) are modelled
as an explicit environment `Env` of oracles; `verify` is then a deterministic
function of the environment.  Each run returns its outcome — `none` models a
Go panic, `some (Except.error e)` an error return, `some (Except.ok ())` the
`return nil` — together with the ordered trace of external calls made,
including connection acquisition/release events (the `defer`s run on every
exit path, panics included).

Byte strings are `List Nat`; Go's `*(*[32]byte)(bs)` conversion panics when
`bs` is shorter than 32 bytes and reinterprets (truncates to) the first 32
bytes otherwise, which `toByte32` models with `Option`.
-/

namespace Rollup

/-- Go errors as produced by `fmt.Errorf("...: %w", err)`: a message plus an
optional wrapped cause (`%w` applied to a nil error wraps no cause). -/
inductive GoError where
  | mk (msg : String) (cause : Option GoError)

/-- The message of a wrapped error. -/
def GoError.msg : GoError → String
  | .mk m _ => m

/-- The wrapped cause of an error (none when `%w` was given a nil error). -/
def GoError.cause : GoError → Option GoError
  | .mk _ c => c

/-- Value of one hexadecimal digit, as accepted by Go's `encoding/hex`
(digits, lowercase and uppercase letters). -/
def hexDigitVal (c : Char) : Option Nat :=
  if '0' ≤ c ∧ c ≤ '9' then some (c.toNat - 48)
  else if 'a' ≤ c ∧ c ≤ 'f' then some (c.toNat - 87)
  else if 'A' ≤ c ∧ c ≤ 'F' then some (c.toNat - 55)
  else none

/-- Go's `hex.DecodeString` over the character list: bytes from consecutive
digit pairs; an odd length or a non-hex character is an error. -/
def hexDecodeChars : List Char → Except GoError (List Nat)
  | [] => Except.ok []
  | [_] => Except.error (GoError.mk "encoding hex odd length hex string" none)
  | c1 :: c2 :: rest =>
    match hexDigitVal c1, hexDigitVal c2 with
    | some hi, some lo =>
      match hexDecodeChars rest with
      | Except.ok bs => Except.ok ((16 * hi + lo) :: bs)
      | Except.error e => Except.error e
    | _, _ => Except.error (GoError.mk "encoding hex invalid byte" none)

/-- Go's `hex.DecodeString`. -/
def hexDecodeString (s : String) : Except GoError (List Nat) :=
  hexDecodeChars s.data

/-- The compiled-in transaction hash constant (`rollup.go` line 20). -/
def txHash : String :=
  "4B122452FA679F15B458271512816B933803D5870919F67969B4D62221D70346"

/-- The bytes `hex.DecodeString(txHash)` yields. -/
def goTxHashBytes : List Nat :=
  [0x4B, 0x12, 0x24, 0x52, 0xFA, 0x67, 0x9F, 0x15,
   0xB4, 0x58, 0x27, 0x15, 0x12, 0x81, 0x6B, 0x93,
   0x38, 0x03, 0xD5, 0x87, 0x09, 0x19, 0xF6, 0x79,
   0x69, 0xB4, 0xD6, 0x22, 0x21, 0xD7, 0x03, 0x46]

/-- The compiled-in blob index constant (`rollup.go` line 21). -/
def blobIndex : Nat := 0

/-- Batch start boundary constant (`rollup.go` line 25). -/
def dataCommitmentStartBlock : Nat := 105001

/-- Batch end boundary constant (`rollup.go` line 26). -/
def dataCommitmentEndBlock : Nat := 106001

/-- Attestation nonce constant (`rollup.go` line 27). -/
def dataCommitmentNonce : Int := 106

/-- What `verify` uses of `trpc.Tx`'s result: the containing block height
(`tx.Height`, an int64) and the in-block transaction index (`tx.Index`). -/
structure TxResult where
  Height : Int
  Index : Nat

/-- What `verify` uses of `trpc.Block`'s result: the raw transaction byte
strings (`block.Block.Txs.ToSliceOfBytes()`), the app version
(`block.Block.Version.App`) and the data root (`block.Block.DataHash`). -/
structure Block where
  Txs : List (List Nat)
  VersionApp : Nat
  DataHash : List Nat

/-- `square.BlobShareRange`'s result: a share range with `Start` and `End`
fields (Go ints). -/
structure ShareRange where
  Start : Int
  End : Int

/-- The share proofs returned by `trpc.ProveShares`, abstracted to the one
observation `verify` makes of them: the boolean their self-contained
`VerifyProof()` check returns. -/
structure ShareProofRes where
  VerifyProof : Bool

/-- Tendermint's `merkle.Proof` (the fields `rollup.go` reads, plus the leaf
hash it carries). -/
structure MerkleProof where
  Total : Int
  Index : Int
  LeafHash : List Nat
  Aunts : List (List Nat)

/-- `trpc.DataRootInclusionProof`'s result, holding a `merkle.Proof`. -/
structure ResultDataRootInclusionProof where
  Proof : MerkleProof

/-- The contract wrapper's `DataRootTuple` (height plus 32-byte data root). -/
structure DataRootTuple where
  Height : Int
  DataRoot : List Nat

/-- The contract wrapper's `BinaryMerkleProof` (ordered 32-byte side nodes,
leaf key, leaf count). -/
structure BinaryMerkleProof where
  SideNodes : List (List Nat)
  Key : Int
  NumLeaves : Int

/-- The bound Blobstream contract, abstracted to its read-only
`VerifyAttestation(opts, nonce, tuple, proof)` entry point, which returns a
boolean and an error (possibly nil). -/
def Wrapper : Type :=
  Int → DataRootTuple → BinaryMerkleProof → Bool × Option GoError

/-- Go's `*(*[32]byte)(bs)` conversion of a byte slice: panics (`none`) when
the slice is shorter than 32 bytes, otherwise reinterprets the first 32
bytes. -/
def toByte32 (bs : List Nat) : Option (List Nat) :=
  if 32 ≤ bs.length then some (bs.take 32) else none

/-- The `for i, aunt := range proof.Aunts` loop of `VerifyDataRootInclusion`:
each aunt is converted with `*(*[32]byte)(aunt)` in order; the whole loop
panics (`none`) as soon as one conversion does. -/
def mapToByte32 : List (List Nat) → Option (List (List Nat))
  | [] => some []
  | a :: rest =>
    match toByte32 a, mapToByte32 rest with
    | some b, some bs => some (b :: bs)
    | _, _ => none

/-- The re-encoding `VerifyDataRootInclusion` performs on the Tendermint
proof (`rollup.go` lines 118-126): side nodes from the aunts in order, `Key`
from `proof.Index`, `NumLeaves` from `proof.Total`. -/
def reencode (proof : MerkleProof) : Option BinaryMerkleProof :=
  match mapToByte32 proof.Aunts with
  | none => none
  | some sideNodes =>
    some { SideNodes := sideNodes, Key := proof.Index, NumLeaves := proof.Total }

/-- `VerifyDataRootInclusion` (`rollup.go` lines 111-130): builds the
`DataRootTuple` from the height and the data root, re-encodes the proof, and
calls the contract's `VerifyAttestation` with `(nonce, tuple, proof)`,
returning its `(bool, error)` result unmodified.  `none` models the panic of
one of the `*(*[32]byte)` conversions. -/
def VerifyDataRootInclusion (blobstreamWrapper : Wrapper) (height : Int)
    (nonce : Int) (dataRoot : List Nat) (proof : MerkleProof) :
    Option (Bool × Option GoError) :=
  match toByte32 dataRoot with
  | none => none
  | some dr =>
    match reencode proof with
    | none => none
    | some wrappedProof =>
      some (blobstreamWrapper nonce
        { Height := height, DataRoot := dr } wrappedProof)

/-- Go's `uint64(i)` conversion of a signed integer (wraps modulo 2^64). -/
def u64 (i : Int) : Nat :=
  (i % 18446744073709551616).toNat

/-- The externally observable calls a run of `verify` makes, in order.
Connection acquisition (`openCelestia`, `openEth`) is recorded on a
successful `http.New` / `ethclient.Dial`, and release (`closeCelestia`,
`closeEth`) when the corresponding `defer` runs. -/
inductive Call where
  | openCelestia
  | txCall (hash : List Nat)
  | blockCall (height : Int)
  | proveSharesCall (height first last : Nat)
  | dcProofCall (height startBlock endBlock : Nat)
  | openEth
  | newWrappersCall
  | attestationCall
  | closeEth
  | closeCelestia

/-- Whether a call is the contract's attestation verification. -/
def Call.isAttestation : Call → Bool
  | .attestationCall => true
  | _ => false

/-- Whether a call is a `ProveShares` request. -/
def Call.isProveShares : Call → Bool
  | .proveSharesCall _ _ _ => true
  | _ => false

/-- Whether a call is a `DataRootInclusionProof` request. -/
def Call.isDcProof : Call → Bool
  | .dcProofCall _ _ _ => true
  | _ => false

/-- Whether a call acquires the Celestia connection. -/
def Call.isOpenCelestia : Call → Bool
  | .openCelestia => true
  | _ => false

/-- Whether a call releases the Celestia connection. -/
def Call.isCloseCelestia : Call → Bool
  | .closeCelestia => true
  | _ => false

/-- Whether a call acquires the Ethereum connection. -/
def Call.isOpenEth : Call → Bool
  | .openEth => true
  | _ => false

/-- Whether a call releases the Ethereum connection. -/
def Call.isCloseEth : Call → Bool
  | .closeEth => true
  | _ => false

/-- How many calls of a trace satisfy a predicate. -/
def countCalls (p : Call → Bool) : List Call → Nat
  | [] => 0
  | c :: rest => (cond (p c) 1 0) + countCalls p rest

/-- The calls of a trace satisfying a predicate, in order. -/
def filterCalls (p : Call → Bool) : List Call → List Call
  | [] => []
  | c :: rest => cond (p c) (c :: filterCalls p rest) (filterCalls p rest)

/-- Whether a run outcome is the success return (`return nil`). -/
def isSuccess : Option (Except GoError Unit) → Bool
  | some (Except.ok _) => true
  | _ => false

/-- Whether a run outcome is the malformed-transaction-hash error return
(`rollup.go` line 45). -/
def isDecodeFailure : Option (Except GoError Unit) → Bool
  | some (Except.error e) =>
    decide (GoError.msg e = "failed to decode transaction hash")
  | _ => false

/-- The pipeline's external collaborators: the Celestia RPC client
construction and its queries, `square.BlobShareRange`, the Ethereum dial,
the contract binding.  Each oracle returns what the corresponding Go call
returns. -/
structure Env where
  newHTTP : Except GoError Unit
  txQ : List Nat → Except GoError TxResult
  blockQ : Int → Except GoError Block
  blobShareRange : List (List Nat) → Nat → Nat → Nat → Except GoError ShareRange
  proveShares : Nat → Nat → Nat → Except GoError ShareProofRes
  dataRootInclusionProof : Nat → Nat → Nat → Except GoError ResultDataRootInclusionProof
  ethDial : Except GoError Unit
  newWrappers : Except GoError Wrapper

/-- `verify()` (`rollup.go` lines 40-109) over an environment of
collaborators.  Returns the run outcome (`none` = panic, `some` = the
function's error return) and the ordered trace of external calls, with each
exit path's trace spelled out (the `defer`d `trpc.Stop()` and
`ethClient.Close()` run on every exit after the respective connection was
acquired, in LIFO order, panics included).  Note that the result of the
final `VerifyDataRootInclusion` call is discarded, exactly as in the source
(line 106), and the function then returns nil. -/
def verify (env : Env) : Option (Except GoError Unit) × List Call :=
  match hexDecodeString txHash with
  | Except.error e =>
    (some (Except.error (GoError.mk "failed to decode transaction hash" (some e))), [])
  | Except.ok txHashBz =>
    match env.newHTTP with
    | Except.error e =>
      (some (Except.error (GoError.mk "failed to connect to Celestia" (some e))), [])
    | Except.ok _ =>
      match env.txQ txHashBz with
      | Except.error e =>
        (some (Except.error (GoError.mk "failed to fetch transaction" (some e))),
         [Call.openCelestia, Call.txCall txHashBz, Call.closeCelestia])
      | Except.ok tx =>
        match env.blockQ tx.Height with
        | Except.error e =>
          (some (Except.error (GoError.mk "failed to fetch block" (some e))),
           [Call.openCelestia, Call.txCall txHashBz, Call.blockCall tx.Height,
            Call.closeCelestia])
        | Except.ok block =>
          match env.blobShareRange block.Txs tx.Index blobIndex block.VersionApp with
          | Except.error e =>
            (some (Except.error (GoError.mk "failed to get blob share range" (some e))),
             [Call.openCelestia, Call.txCall txHashBz, Call.blockCall tx.Height,
              Call.closeCelestia])
          | Except.ok blobShareRange =>
            match env.proveShares (u64 tx.Height) (u64 blobShareRange.Start)
                (u64 blobShareRange.End) with
            | Except.error e =>
              (some (Except.error (GoError.mk "failed to get share proofs" (some e))),
               [Call.openCelestia, Call.txCall txHashBz, Call.blockCall tx.Height,
                Call.proveSharesCall (u64 tx.Height) (u64 blobShareRange.Start)
                  (u64 blobShareRange.End),
                Call.closeCelestia])
            | Except.ok shareProofs =>
              match shareProofs.VerifyProof with
              | false =>
                (some (Except.error (GoError.mk "failed to verify share proofs" none)),
                 [Call.openCelestia, Call.txCall txHashBz, Call.blockCall tx.Height,
                  Call.proveSharesCall (u64 tx.Height) (u64 blobShareRange.Start)
                    (u64 blobShareRange.End),
                  Call.closeCelestia])
              | true =>
                match env.dataRootInclusionProof (u64 tx.Height)
                    dataCommitmentStartBlock dataCommitmentEndBlock with
                | Except.error e =>
                  (some (Except.error
                      (GoError.mk "failed to generate data root inclusion proof" (some e))),
                   [Call.openCelestia, Call.txCall txHashBz, Call.blockCall tx.Height,
                    Call.proveSharesCall (u64 tx.Height) (u64 blobShareRange.Start)
                      (u64 blobShareRange.End),
                    Call.dcProofCall (u64 tx.Height) dataCommitmentStartBlock
                      dataCommitmentEndBlock,
                    Call.closeCelestia])
                | Except.ok dcProof =>
                  match env.ethDial with
                  | Except.error e =>
                    (some (Except.error
                        (GoError.mk "failed to connect to Ethereum client" (some e))),
                     [Call.openCelestia, Call.txCall txHashBz, Call.blockCall tx.Height,
                      Call.proveSharesCall (u64 tx.Height) (u64 blobShareRange.Start)
                        (u64 blobShareRange.End),
                      Call.dcProofCall (u64 tx.Height) dataCommitmentStartBlock
                        dataCommitmentEndBlock,
                      Call.closeCelestia])
                  | Except.ok _ =>
                    match env.newWrappers with
                    | Except.error e =>
                      (some (Except.error
                          (GoError.mk "failed to fetch BlobstreamX contract" (some e))),
                       [Call.openCelestia, Call.txCall txHashBz, Call.blockCall tx.Height,
                        Call.proveSharesCall (u64 tx.Height) (u64 blobShareRange.Start)
                          (u64 blobShareRange.End),
                        Call.dcProofCall (u64 tx.Height) dataCommitmentStartBlock
                          dataCommitmentEndBlock,
                        Call.openEth, Call.newWrappersCall, Call.closeEth,
                        Call.closeCelestia])
                    | Except.ok blobstreamWrapper =>
                      match VerifyDataRootInclusion blobstreamWrapper tx.Height
                          dataCommitmentNonce block.DataHash dcProof.Proof with
                      | none =>
                        (none,
                         [Call.openCelestia, Call.txCall txHashBz, Call.blockCall tx.Height,
                          Call.proveSharesCall (u64 tx.Height) (u64 blobShareRange.Start)
                            (u64 blobShareRange.End),
                          Call.dcProofCall (u64 tx.Height) dataCommitmentStartBlock
                            dataCommitmentEndBlock,
                          Call.openEth, Call.newWrappersCall, Call.closeEth,
                          Call.closeCelestia])
                      | some _ =>
                        (some (Except.ok ()),
                         [Call.openCelestia, Call.txCall txHashBz, Call.blockCall tx.Height,
                          Call.proveSharesCall (u64 tx.Height) (u64 blobShareRange.Start)
                            (u64 blobShareRange.End),
                          Call.dcProofCall (u64 tx.Height) dataCommitmentStartBlock
                            dataCommitmentEndBlock,
                          Call.openEth, Call.newWrappersCall, Call.attestationCall,
                          Call.closeEth, Call.closeCelestia])

/-- A 32-byte all-zero hash, for concrete runs. -/
def bytes32 : List Nat := List.replicate 32 0

/-- A second 32-byte hash, for concrete runs. -/
def bytes32b : List Nat := List.replicate 32 1

/-- A concrete located transaction: height 5, in-block index 0. -/
def txW : TxResult := { Height := 5, Index := 0 }

/-- A concrete block at height 5. -/
def blkW : Block := { Txs := [[7]], VersionApp := 1, DataHash := bytes32 }

/-- A concrete share range. -/
def rW : ShareRange := { Start := 0, End := 1 }

/-- A concrete Tendermint Merkle proof with two 32-byte aunts. -/
def proofW : MerkleProof :=
  { Total := 1000, Index := 3, LeafHash := bytes32, Aunts := [bytes32, bytes32b] }

/-- A concrete data-root inclusion proof result. -/
def dcW : ResultDataRootInclusionProof := { Proof := proofW }

/-- A concrete underlying error for failing oracles. -/
def errW : GoError := GoError.mk "boom" none

/-- A contract whose attestation check always reports the tuple included. -/
def wrapperTrue : Wrapper := fun _ _ _ => (true, none)

/-- A contract whose attestation check always reports the tuple NOT
included. -/
def wrapperFalse : Wrapper := fun _ _ _ => (false, none)

/-- An environment in which every stage succeeds and the contract attests. -/
def envHappy : Env :=
  { newHTTP := Except.ok ()
    txQ := fun _ => Except.ok txW
    blockQ := fun _ => Except.ok blkW
    blobShareRange := fun _ _ _ _ => Except.ok rW
    proveShares := fun _ _ _ => Except.ok { VerifyProof := true }
    dataRootInclusionProof := fun _ _ _ => Except.ok dcW
    ethDial := Except.ok ()
    newWrappers := Except.ok wrapperTrue }

/-- As `envHappy`, except the contract reports the tuple not included. -/
def envAttFalse : Env := { envHappy with newWrappers := Except.ok wrapperFalse }

/-- As `envHappy`, except the Celestia client construction fails. -/
def envHTTPFail : Env := { envHappy with newHTTP := Except.error errW }

/-- As `envHappy`, except the transaction fetch fails. -/
def envTxFail : Env := { envHappy with txQ := fun _ => Except.error errW }

/-- As `envHappy`, except the share-range computation fails. -/
def envRangeFail : Env :=
  { envHappy with blobShareRange := fun _ _ _ _ => Except.error errW }

/-- As `envHappy`, except the share proofs fail their self-check. -/
def envPSFalse : Env :=
  { envHappy with proveShares := fun _ _ _ => Except.ok { VerifyProof := false } }

lemma hexDecode_txHash : hexDecodeString txHash = Except.ok goTxHashBytes := by
  rfl

/-- Every run of `verify`, over any environment: the malformed-hash failure
never occurs (the compiled-in hash decodes), the contract's attestation
entry point is called exactly when the run reports success, and each
connection is released exactly as often as it was acquired. -/
lemma verifyShape (env : Env) :
    isDecodeFailure (verify env).1 = false ∧
    countCalls Call.isAttestation (verify env).2 =
      cond (isSuccess (verify env).1) 1 0 ∧
    countCalls Call.isOpenCelestia (verify env).2 =
      countCalls Call.isCloseCelestia (verify env).2 ∧
    countCalls Call.isOpenEth (verify env).2 =
      countCalls Call.isCloseEth (verify env).2 := by
  rcases h1 : env.newHTTP with e1 | u1
  · simp [verify, hexDecode_txHash, h1, isDecodeFailure, isSuccess, countCalls,
      GoError.msg]
  · rcases h2 : env.txQ goTxHashBytes with e2 | tx
    · simp [verify, hexDecode_txHash, h1, h2, isDecodeFailure, isSuccess,
        countCalls, Call.isAttestation, Call.isOpenCelestia, Call.isCloseCelestia,
        Call.isOpenEth, Call.isCloseEth, GoError.msg]
    · rcases h3 : env.blockQ tx.Height with e3 | blk
      · simp [verify, hexDecode_txHash, h1, h2, h3, isDecodeFailure, isSuccess,
          countCalls, Call.isAttestation, Call.isOpenCelestia, Call.isCloseCelestia,
          Call.isOpenEth, Call.isCloseEth, GoError.msg]
      · rcases h4 : env.blobShareRange blk.Txs tx.Index blobIndex blk.VersionApp
            with e4 | r
        · simp [verify, hexDecode_txHash, h1, h2, h3, h4, isDecodeFailure, isSuccess,
            countCalls, Call.isAttestation, Call.isOpenCelestia, Call.isCloseCelestia,
            Call.isOpenEth, Call.isCloseEth, GoError.msg]
        · rcases h5 : env.proveShares (u64 tx.Height) (u64 r.Start) (u64 r.End)
              with e5 | sp
          · simp [verify, hexDecode_txHash, h1, h2, h3, h4, h5, isDecodeFailure,
              isSuccess, countCalls, Call.isAttestation, Call.isOpenCelestia,
              Call.isCloseCelestia, Call.isOpenEth, Call.isCloseEth,
              GoError.msg]
          · cases hsp : sp.VerifyProof
            · simp [verify, hexDecode_txHash, h1, h2, h3, h4, h5, hsp,
                isDecodeFailure, isSuccess, countCalls, Call.isAttestation,
                Call.isOpenCelestia, Call.isCloseCelestia, Call.isOpenEth,
                Call.isCloseEth, GoError.msg]
            · rcases h6 : env.dataRootInclusionProof (u64 tx.Height)
                  dataCommitmentStartBlock dataCommitmentEndBlock with e6 | dc
              · simp [verify, hexDecode_txHash, h1, h2, h3, h4, h5, hsp, h6,
                  isDecodeFailure, isSuccess, countCalls, Call.isAttestation,
                  Call.isOpenCelestia, Call.isCloseCelestia, Call.isOpenEth,
                  Call.isCloseEth, GoError.msg]
              · rcases h7 : env.ethDial with e7 | u7
                · simp [verify, hexDecode_txHash, h1, h2, h3, h4, h5, hsp, h6, h7,
                    isDecodeFailure, isSuccess, countCalls, Call.isAttestation,
                    Call.isOpenCelestia, Call.isCloseCelestia, Call.isOpenEth,
                    Call.isCloseEth, GoError.msg]
                · rcases h8 : env.newWrappers with e8 | w
                  · simp [verify, hexDecode_txHash, h1, h2, h3, h4, h5, hsp, h6, h7,
                      h8, isDecodeFailure, isSuccess, countCalls, Call.isAttestation,
                      Call.isOpenCelestia, Call.isCloseCelestia, Call.isOpenEth,
                      Call.isCloseEth, GoError.msg]
                  · rcases hv : VerifyDataRootInclusion w tx.Height
                        dataCommitmentNonce blk.DataHash dc.Proof with _ | pr
                    · simp [verify, hexDecode_txHash, h1, h2, h3, h4, h5, hsp, h6,
                        h7, h8, hv, isDecodeFailure, isSuccess, countCalls,
                        Call.isAttestation, Call.isOpenCelestia, Call.isCloseCelestia,
                        Call.isOpenEth, Call.isCloseEth, GoError.msg]
                    · simp [verify, hexDecode_txHash, h1, h2, h3, h4, h5, hsp, h6,
                        h7, h8, hv, isDecodeFailure, isSuccess, countCalls,
                        Call.isAttestation, Call.isOpenCelestia, Call.isCloseCelestia,
                        Call.isOpenEth, Call.isCloseEth, GoError.msg]

lemma take_32_self (a : List Nat) (h : a.length = 32) : a.take 32 = a := by
  rw [← h]
  exact List.take_length a

lemma mapToByte32_all32 (l : List (List Nat)) (h : ∀ a ∈ l, a.length = 32) :
    mapToByte32 l = some l := by
  induction l with
  | nil => rfl
  | cons a rest ih =>
    have ha : a.length = 32 := h a (List.mem_cons_self a rest)
    have hr := ih (fun x hx => h x (List.mem_cons_of_mem a hx))
    simp [mapToByte32, toByte32, ha, hr, take_32_self a ha]

lemma mapToByte32_eq (l : List (List Nat)) :
    mapToByte32 l =
      if ∀ a ∈ l, 32 ≤ a.length then some (l.map fun a => a.take 32)
      else none := by
  induction l with
  | nil => simp [mapToByte32]
  | cons a rest ih =>
    by_cases hha : 32 ≤ a.length
    · by_cases hr : ∀ x ∈ rest, 32 ≤ x.length
      · have hca : ∀ x ∈ a :: rest, 32 ≤ x.length := by
          intro x hx
          rcases List.mem_cons.mp hx with hx1 | hx2
          · subst hx1; exact hha
          · exact hr x hx2
        rw [if_pos hca]
        have hm : mapToByte32 rest = some (List.map (fun x => List.take 32 x) rest) := by
          rw [ih, if_pos hr]
        simp [mapToByte32, toByte32, hha, hm]
      · have hca : ¬ ∀ x ∈ a :: rest, 32 ≤ x.length := by
          intro hx
          exact hr (fun x hxx => hx x (List.mem_cons_of_mem a hxx))
        rw [if_neg hca]
        have hm : mapToByte32 rest = none := by rw [ih, if_neg hr]
        simp [mapToByte32, toByte32, hha, hm]
    · have hca : ¬ ∀ x ∈ a :: rest, 32 ≤ x.length := fun hx =>
        hha (hx a (List.mem_cons_self a rest))
      rw [if_neg hca]
      simp [mapToByte32, toByte32, hha]

/-- C2: the re-encoding of a Tendermint Merkle proof into the contract's
`BinaryMerkleProof` is order-preserving and lossless — for a proof whose
aunts are 32-byte hashes, the produced side nodes are exactly the aunts,
element-wise and in order, `Key` is `p.Index` and `NumLeaves` is `p.Total`;
no hash is recomputed, reordered or dropped. -/
theorem reencodePreservesProof (p : MerkleProof)
    (h : ∀ a ∈ p.Aunts, a.length = 32) :
    reencode p =
      some { SideNodes := p.Aunts, Key := p.Index, NumLeaves := p.Total } := by
  simp [reencode, mapToByte32_all32 p.Aunts h]

/-- C2 witness: the re-encoding theorem at a concrete two-aunt proof. -/
theorem reencodePreservesProofWitness :
    (∀ a ∈ proofW.Aunts, a.length = 32) ∧
    reencode proofW =
      some { SideNodes := proofW.Aunts, Key := proofW.Index,
             NumLeaves := proofW.Total } :=
  ⟨by decide, reencodePreservesProof proofW (by decide)⟩

/-- C8: for 32-byte inputs, `VerifyDataRootInclusion` invokes the contract's
attestation entry point with exactly `(nonce, tuple, proof)`, the tuple's
`Height` being the height argument and its `DataRoot` the 32-byte data root
argument, and returns the call's boolean/error result unmodified. -/
theorem verifyDataRootInclusionExactCall (contract : Wrapper)
    (height nonce : Int) (dataRoot : List Nat) (p : MerkleProof)
    (hdr : dataRoot.length = 32) (h : ∀ a ∈ p.Aunts, a.length = 32) :
    VerifyDataRootInclusion contract height nonce dataRoot p =
      some (contract nonce { Height := height, DataRoot := dataRoot }
        { SideNodes := p.Aunts, Key := p.Index, NumLeaves := p.Total }) := by
  simp [VerifyDataRootInclusion, toByte32, hdr, take_32_self dataRoot hdr,
    reencode, mapToByte32_all32 p.Aunts h]

/-- C8 witness: the exact-call theorem at a concrete contract, height 7,
nonce 106, a 32-byte data root and a two-aunt proof. -/
theorem verifyDataRootInclusionExactCallWitness :
    bytes32.length = 32 ∧ (∀ a ∈ proofW.Aunts, a.length = 32) ∧
    VerifyDataRootInclusion wrapperTrue 7 106 bytes32 proofW =
      some (wrapperTrue 106 { Height := 7, DataRoot := bytes32 }
        { SideNodes := proofW.Aunts, Key := proofW.Index,
          NumLeaves := proofW.Total }) :=
  ⟨by decide, by decide,
   verifyDataRootInclusionExactCall wrapperTrue 7 106 bytes32 proofW
     (by decide) (by decide)⟩

/-- C9: `VerifyDataRootInclusion` panics (models as `none`) exactly when the
data root or some aunt is shorter than 32 bytes; otherwise it silently
truncates every longer input to its first 32 bytes and calls the contract. -/
theorem verifyDataRootInclusionPanicsOrTruncates (contract : Wrapper)
    (height nonce : Int) (dataRoot : List Nat) (p : MerkleProof) :
    VerifyDataRootInclusion contract height nonce dataRoot p =
      if dataRoot.length < 32 ∨ ∃ a ∈ p.Aunts, a.length < 32 then none
      else
        some (contract nonce { Height := height, DataRoot := dataRoot.take 32 }
          { SideNodes := p.Aunts.map fun a => a.take 32, Key := p.Index,
            NumLeaves := p.Total }) := by
  by_cases hdr : 32 ≤ dataRoot.length
  · by_cases hex : ∀ a ∈ p.Aunts, 32 ≤ a.length
    · have hcond : ¬(dataRoot.length < 32 ∨ ∃ a ∈ p.Aunts, a.length < 32) := by
        push_neg
        exact ⟨by omega, fun a ha => by have := hex a ha; omega⟩
      rw [if_neg hcond]
      have hm : mapToByte32 p.Aunts =
          some (List.map (fun a => List.take 32 a) p.Aunts) := by
        rw [mapToByte32_eq, if_pos hex]
      simp [VerifyDataRootInclusion, toByte32, hdr, reencode, hm]
    · have hcond : dataRoot.length < 32 ∨ ∃ a ∈ p.Aunts, a.length < 32 := by
        right
        push_neg at hex
        obtain ⟨a, ha, hlen⟩ := hex
        exact ⟨a, ha, by omega⟩
      rw [if_pos hcond]
      have hm : mapToByte32 p.Aunts = none := by
        rw [mapToByte32_eq, if_neg hex]
      simp [VerifyDataRootInclusion, toByte32, hdr, reencode, hm]
  · have hcond : dataRoot.length < 32 ∨ ∃ a ∈ p.Aunts, a.length < 32 :=
      Or.inl (by omega)
    rw [if_pos hcond]
    simp [VerifyDataRootInclusion, toByte32, hdr]

lemma afterShareVerified (env : Env) (tx : TxResult) (blk : Block)
    (r : ShareRange) (sp : ShareProofRes)
    (h1 : env.newHTTP = Except.ok ())
    (h2 : env.txQ goTxHashBytes = Except.ok tx)
    (h3 : env.blockQ tx.Height = Except.ok blk)
    (h4 : env.blobShareRange blk.Txs tx.Index blobIndex blk.VersionApp = Except.ok r)
    (h5 : env.proveShares (u64 tx.Height) (u64 r.Start) (u64 r.End) = Except.ok sp)
    (hsp : sp.VerifyProof = true) :
    filterCalls Call.isProveShares (verify env).2 =
      [Call.proveSharesCall (u64 tx.Height) (u64 r.Start) (u64 r.End)] ∧
    filterCalls Call.isDcProof (verify env).2 =
      [Call.dcProofCall (u64 tx.Height) dataCommitmentStartBlock
        dataCommitmentEndBlock] ∧
    countCalls Call.isDcProof (verify env).2 = 1 := by
  rcases h6 : env.dataRootInclusionProof (u64 tx.Height) dataCommitmentStartBlock
      dataCommitmentEndBlock with e6 | dc
  · simp [verify, hexDecode_txHash, h1, h2, h3, h4, h5, hsp, h6, filterCalls,
      countCalls, Call.isProveShares, Call.isDcProof]
  · rcases h7 : env.ethDial with e7 | u7
    · simp [verify, hexDecode_txHash, h1, h2, h3, h4, h5, hsp, h6, h7,
        filterCalls, countCalls, Call.isProveShares, Call.isDcProof]
    · rcases h8 : env.newWrappers with e8 | w
      · simp [verify, hexDecode_txHash, h1, h2, h3, h4, h5, hsp, h6, h7, h8,
          filterCalls, countCalls, Call.isProveShares, Call.isDcProof]
      · rcases hv : VerifyDataRootInclusion w tx.Height dataCommitmentNonce
            blk.DataHash dc.Proof with _ | pr
        · simp [verify, hexDecode_txHash, h1, h2, h3, h4, h5, hsp, h6, h7, h8,
            hv, filterCalls, countCalls, Call.isProveShares, Call.isDcProof]
        · simp [verify, hexDecode_txHash, h1, h2, h3, h4, h5, hsp, h6, h7, h8,
            hv, filterCalls, countCalls, Call.isProveShares, Call.isDcProof]

/-- C1 (code bug): a complete run in which every stage succeeds but the
bridge contract's attestation check explicitly returns `false` with no
error — the attestation stage's result is `(false, nil)` — and `verify`
nonetheless reports success (`return nil`), because line 106 of `rollup.go`
discards `VerifyDataRootInclusion`'s `(bool, error)` result. -/
theorem attestationFalseStillReportsSuccess :
    VerifyDataRootInclusion wrapperFalse txW.Height dataCommitmentNonce
      blkW.DataHash dcW.Proof = some (false, none) ∧
    verify envAttFalse = (some (Except.ok ()),
      [Call.openCelestia, Call.txCall goTxHashBytes, Call.blockCall txW.Height,
       Call.proveSharesCall (u64 txW.Height) (u64 rW.Start) (u64 rW.End),
       Call.dcProofCall (u64 txW.Height) dataCommitmentStartBlock
         dataCommitmentEndBlock,
       Call.openEth, Call.newWrappersCall, Call.attestationCall, Call.closeEth,
       Call.closeCelestia]) :=
  ⟨rfl, rfl⟩

/-- C3: the pipeline fails closed.  The contract's attestation entry point
is reached exactly on successful runs, and each pre-attestation stage
failure (Celestia connection, transaction fetch, block fetch, share-range
computation, share-proof fetch, share-proof check, inclusion-proof fetch,
Ethereum dial, contract binding) makes `verify` return at once with an
error wrapping the underlying cause, its trace showing that no later stage
ran — in particular, a share-range failure leaves no `ProveShares`,
`DataRootInclusionProof` or contract call in the trace. -/
theorem pipelineFailsClosed :
    (∀ env : Env, countCalls Call.isAttestation (verify env).2 =
      cond (isSuccess (verify env).1) 1 0) ∧
    (∀ (env : Env) (e : GoError), env.newHTTP = Except.error e →
      verify env = (some (Except.error
        (GoError.mk "failed to connect to Celestia" (some e))), [])) ∧
    (∀ (env : Env) (e : GoError), env.newHTTP = Except.ok () →
      env.txQ goTxHashBytes = Except.error e →
      verify env = (some (Except.error
          (GoError.mk "failed to fetch transaction" (some e))),
        [Call.openCelestia, Call.txCall goTxHashBytes, Call.closeCelestia])) ∧
    (∀ (env : Env) (tx : TxResult) (e : GoError), env.newHTTP = Except.ok () →
      env.txQ goTxHashBytes = Except.ok tx →
      env.blockQ tx.Height = Except.error e →
      verify env = (some (Except.error
          (GoError.mk "failed to fetch block" (some e))),
        [Call.openCelestia, Call.txCall goTxHashBytes, Call.blockCall tx.Height,
         Call.closeCelestia])) ∧
    (∀ (env : Env) (tx : TxResult) (blk : Block) (e : GoError),
      env.newHTTP = Except.ok () →
      env.txQ goTxHashBytes = Except.ok tx →
      env.blockQ tx.Height = Except.ok blk →
      env.blobShareRange blk.Txs tx.Index blobIndex blk.VersionApp =
        Except.error e →
      verify env = (some (Except.error
          (GoError.mk "failed to get blob share range" (some e))),
        [Call.openCelestia, Call.txCall goTxHashBytes, Call.blockCall tx.Height,
         Call.closeCelestia]) ∧
      countCalls Call.isAttestation (verify env).2 = 0 ∧
      countCalls Call.isDcProof (verify env).2 = 0 ∧
      countCalls Call.isProveShares (verify env).2 = 0) ∧
    (∀ (env : Env) (tx : TxResult) (blk : Block) (r : ShareRange) (e : GoError),
      env.newHTTP = Except.ok () →
      env.txQ goTxHashBytes = Except.ok tx →
      env.blockQ tx.Height = Except.ok blk →
      env.blobShareRange blk.Txs tx.Index blobIndex blk.VersionApp = Except.ok r →
      env.proveShares (u64 tx.Height) (u64 r.Start) (u64 r.End) = Except.error e →
      verify env = (some (Except.error
          (GoError.mk "failed to get share proofs" (some e))),
        [Call.openCelestia, Call.txCall goTxHashBytes, Call.blockCall tx.Height,
         Call.proveSharesCall (u64 tx.Height) (u64 r.Start) (u64 r.End),
         Call.closeCelestia])) ∧
    (∀ (env : Env) (tx : TxResult) (blk : Block) (r : ShareRange)
        (sp : ShareProofRes),
      env.newHTTP = Except.ok () →
      env.txQ goTxHashBytes = Except.ok tx →
      env.blockQ tx.Height = Except.ok blk →
      env.blobShareRange blk.Txs tx.Index blobIndex blk.VersionApp = Except.ok r →
      env.proveShares (u64 tx.Height) (u64 r.Start) (u64 r.End) = Except.ok sp →
      sp.VerifyProof = false →
      verify env = (some (Except.error
          (GoError.mk "failed to verify share proofs" none)),
        [Call.openCelestia, Call.txCall goTxHashBytes, Call.blockCall tx.Height,
         Call.proveSharesCall (u64 tx.Height) (u64 r.Start) (u64 r.End),
         Call.closeCelestia])) ∧
    (∀ (env : Env) (tx : TxResult) (blk : Block) (r : ShareRange)
        (sp : ShareProofRes) (e : GoError),
      env.newHTTP = Except.ok () →
      env.txQ goTxHashBytes = Except.ok tx →
      env.blockQ tx.Height = Except.ok blk →
      env.blobShareRange blk.Txs tx.Index blobIndex blk.VersionApp = Except.ok r →
      env.proveShares (u64 tx.Height) (u64 r.Start) (u64 r.End) = Except.ok sp →
      sp.VerifyProof = true →
      env.dataRootInclusionProof (u64 tx.Height) dataCommitmentStartBlock
        dataCommitmentEndBlock = Except.error e →
      verify env = (some (Except.error
          (GoError.mk "failed to generate data root inclusion proof" (some e))),
        [Call.openCelestia, Call.txCall goTxHashBytes, Call.blockCall tx.Height,
         Call.proveSharesCall (u64 tx.Height) (u64 r.Start) (u64 r.End),
         Call.dcProofCall (u64 tx.Height) dataCommitmentStartBlock
           dataCommitmentEndBlock,
         Call.closeCelestia])) ∧
    (∀ (env : Env) (tx : TxResult) (blk : Block) (r : ShareRange)
        (sp : ShareProofRes) (dc : ResultDataRootInclusionProof) (e : GoError),
      env.newHTTP = Except.ok () →
      env.txQ goTxHashBytes = Except.ok tx →
      env.blockQ tx.Height = Except.ok blk →
      env.blobShareRange blk.Txs tx.Index blobIndex blk.VersionApp = Except.ok r →
      env.proveShares (u64 tx.Height) (u64 r.Start) (u64 r.End) = Except.ok sp →
      sp.VerifyProof = true →
      env.dataRootInclusionProof (u64 tx.Height) dataCommitmentStartBlock
        dataCommitmentEndBlock = Except.ok dc →
      env.ethDial = Except.error e →
      verify env = (some (Except.error
          (GoError.mk "failed to connect to Ethereum client" (some e))),
        [Call.openCelestia, Call.txCall goTxHashBytes, Call.blockCall tx.Height,
         Call.proveSharesCall (u64 tx.Height) (u64 r.Start) (u64 r.End),
         Call.dcProofCall (u64 tx.Height) dataCommitmentStartBlock
           dataCommitmentEndBlock,
         Call.closeCelestia])) ∧
    (∀ (env : Env) (tx : TxResult) (blk : Block) (r : ShareRange)
        (sp : ShareProofRes) (dc : ResultDataRootInclusionProof) (e : GoError),
      env.newHTTP = Except.ok () →
      env.txQ goTxHashBytes = Except.ok tx →
      env.blockQ tx.Height = Except.ok blk →
      env.blobShareRange blk.Txs tx.Index blobIndex blk.VersionApp = Except.ok r →
      env.proveShares (u64 tx.Height) (u64 r.Start) (u64 r.End) = Except.ok sp →
      sp.VerifyProof = true →
      env.dataRootInclusionProof (u64 tx.Height) dataCommitmentStartBlock
        dataCommitmentEndBlock = Except.ok dc →
      env.ethDial = Except.ok () →
      env.newWrappers = Except.error e →
      verify env = (some (Except.error
          (GoError.mk "failed to fetch BlobstreamX contract" (some e))),
        [Call.openCelestia, Call.txCall goTxHashBytes, Call.blockCall tx.Height,
         Call.proveSharesCall (u64 tx.Height) (u64 r.Start) (u64 r.End),
         Call.dcProofCall (u64 tx.Height) dataCommitmentStartBlock
           dataCommitmentEndBlock,
         Call.openEth, Call.newWrappersCall, Call.closeEth,
         Call.closeCelestia])) := by
  refine ⟨fun env => (verifyShape env).2.1, ?_, ?_, ?_, ?_, ?_, ?_, ?_, ?_, ?_⟩
  · intro env e h1
    simp [verify, hexDecode_txHash, h1]
  · intro env e h1 h2
    simp [verify, hexDecode_txHash, h1, h2]
  · intro env tx e h1 h2 h3
    simp [verify, hexDecode_txHash, h1, h2, h3]
  · intro env tx blk e h1 h2 h3 h4
    have hrun : verify env = (some (Except.error
        (GoError.mk "failed to get blob share range" (some e))),
      [Call.openCelestia, Call.txCall goTxHashBytes, Call.blockCall tx.Height,
       Call.closeCelestia]) := by
      simp [verify, hexDecode_txHash, h1, h2, h3, h4]
    refine ⟨hrun, ?_, ?_, ?_⟩ <;>
      rw [hrun] <;>
      simp [countCalls, Call.isAttestation, Call.isDcProof, Call.isProveShares]
  · intro env tx blk r e h1 h2 h3 h4 h5
    simp [verify, hexDecode_txHash, h1, h2, h3, h4, h5]
  · intro env tx blk r sp h1 h2 h3 h4 h5 hsp
    simp [verify, hexDecode_txHash, h1, h2, h3, h4, h5, hsp]
  · intro env tx blk r sp e h1 h2 h3 h4 h5 hsp h6
    simp [verify, hexDecode_txHash, h1, h2, h3, h4, h5, hsp, h6]
  · intro env tx blk r sp dc e h1 h2 h3 h4 h5 hsp h6 h7
    simp [verify, hexDecode_txHash, h1, h2, h3, h4, h5, hsp, h6, h7]
  · intro env tx blk r sp dc e h1 h2 h3 h4 h5 hsp h6 h7 h8
    simp [verify, hexDecode_txHash, h1, h2, h3, h4, h5, hsp, h6, h7, h8]

/-- C3 witness: the fail-closed theorem at two concrete environments — one
failing at the Celestia connection, one failing at the share-range
computation (whose trace holds no contract call). -/
theorem pipelineFailsClosedWitness :
    verify envHTTPFail = (some (Except.error
      (GoError.mk "failed to connect to Celestia" (some errW))), []) ∧
    verify envRangeFail = (some (Except.error
        (GoError.mk "failed to get blob share range" (some errW))),
      [Call.openCelestia, Call.txCall goTxHashBytes, Call.blockCall txW.Height,
       Call.closeCelestia]) ∧
    countCalls Call.isAttestation (verify envRangeFail).2 = 0 :=
  ⟨pipelineFailsClosed.2.1 envHTTPFail errW rfl,
   (pipelineFailsClosed.2.2.2.2.1 envRangeFail txW blkW errW rfl rfl rfl rfl).1,
   (pipelineFailsClosed.2.2.2.2.1 envRangeFail txW blkW errW rfl rfl rfl rfl).2.1⟩

/-- C4: when the fetched share proofs fail their self-check, `verify` halts
with an error — having issued exactly one `ProveShares` request and no
`DataRootInclusionProof` or contract call, so there is no retry with a
different range — and when the self-check passes, execution proceeds to the
batch-inclusion stage (a `DataRootInclusionProof` request is issued). -/
theorem shareProofVerificationGates :
    (∀ (env : Env) (tx : TxResult) (blk : Block) (r : ShareRange)
        (sp : ShareProofRes),
      env.newHTTP = Except.ok () →
      env.txQ goTxHashBytes = Except.ok tx →
      env.blockQ tx.Height = Except.ok blk →
      env.blobShareRange blk.Txs tx.Index blobIndex blk.VersionApp = Except.ok r →
      env.proveShares (u64 tx.Height) (u64 r.Start) (u64 r.End) = Except.ok sp →
      sp.VerifyProof = false →
      (verify env).1 = some (Except.error
        (GoError.mk "failed to verify share proofs" none)) ∧
      countCalls Call.isProveShares (verify env).2 = 1 ∧
      countCalls Call.isDcProof (verify env).2 = 0 ∧
      countCalls Call.isAttestation (verify env).2 = 0) ∧
    (∀ (env : Env) (tx : TxResult) (blk : Block) (r : ShareRange)
        (sp : ShareProofRes),
      env.newHTTP = Except.ok () →
      env.txQ goTxHashBytes = Except.ok tx →
      env.blockQ tx.Height = Except.ok blk →
      env.blobShareRange blk.Txs tx.Index blobIndex blk.VersionApp = Except.ok r →
      env.proveShares (u64 tx.Height) (u64 r.Start) (u64 r.End) = Except.ok sp →
      sp.VerifyProof = true →
      countCalls Call.isDcProof (verify env).2 = 1) := by
  constructor
  · intro env tx blk r sp h1 h2 h3 h4 h5 hsp
    have hrun : verify env = (some (Except.error
        (GoError.mk "failed to verify share proofs" none)),
      [Call.openCelestia, Call.txCall goTxHashBytes, Call.blockCall tx.Height,
       Call.proveSharesCall (u64 tx.Height) (u64 r.Start) (u64 r.End),
       Call.closeCelestia]) := by
      simp [verify, hexDecode_txHash, h1, h2, h3, h4, h5, hsp]
    refine ⟨?_, ?_, ?_, ?_⟩ <;>
      rw [hrun] <;>
      simp [countCalls, Call.isAttestation, Call.isDcProof, Call.isProveShares]
  · intro env tx blk r sp h1 h2 h3 h4 h5 hsp
    exact (afterShareVerified env tx blk r sp h1 h2 h3 h4 h5 hsp).2.2

/-- C4 witness: the gating theorem at a run whose share proofs fail the
self-check and at a run whose share proofs pass it. -/
theorem shareProofVerificationGatesWitness :
    ((verify envPSFalse).1 = some (Except.error
        (GoError.mk "failed to verify share proofs" none)) ∧
      countCalls Call.isProveShares (verify envPSFalse).2 = 1 ∧
      countCalls Call.isDcProof (verify envPSFalse).2 = 0 ∧
      countCalls Call.isAttestation (verify envPSFalse).2 = 0) ∧
    countCalls Call.isDcProof (verify envHappy).2 = 1 :=
  ⟨shareProofVerificationGates.1 envPSFalse txW blkW rW { VerifyProof := false }
      rfl rfl rfl rfl rfl rfl,
   shareProofVerificationGates.2 envHappy txW blkW rW { VerifyProof := true }
      rfl rfl rfl rfl rfl rfl⟩

/-- C5: in the branch where the share proofs' self-check returns false, the
error `verify` constructs wraps a nil underlying error — the `err` variable
is necessarily nil there, so the error literally carries `none` as its
cause. -/
theorem proofInvalidWrapsNilError (env : Env) (tx : TxResult) (blk : Block)
    (r : ShareRange) (sp : ShareProofRes)
    (h1 : env.newHTTP = Except.ok ())
    (h2 : env.txQ goTxHashBytes = Except.ok tx)
    (h3 : env.blockQ tx.Height = Except.ok blk)
    (h4 : env.blobShareRange blk.Txs tx.Index blobIndex blk.VersionApp = Except.ok r)
    (h5 : env.proveShares (u64 tx.Height) (u64 r.Start) (u64 r.End) = Except.ok sp)
    (hsp : sp.VerifyProof = false) :
    (verify env).1 = some (Except.error
      (GoError.mk "failed to verify share proofs" none)) := by
  simp [verify, hexDecode_txHash, h1, h2, h3, h4, h5, hsp]

/-- C5 witness: the nil-cause theorem at a concrete failing self-check. -/
theorem proofInvalidWrapsNilErrorWitness :
    (verify envPSFalse).1 = some (Except.error
      (GoError.mk "failed to verify share proofs" none)) :=
  proofInvalidWrapsNilError envPSFalse txW blkW rW { VerifyProof := false }
    rfl rfl rfl rfl rfl rfl

/-- C6 counterexample: a run failing at the transaction fetch completes with
the Celestia connection opened and closed but the Ethereum connection never
acquired at all — refuting that both network connections are acquired at
startup of the pipeline (the Ethereum client is dialed only later, after
four Celestia stages, and only on runs that reach that point). -/
theorem ethConnectionNotAcquiredAtStartup :
    verify envTxFail = (some (Except.error
        (GoError.mk "failed to fetch transaction" (some errW))),
      [Call.openCelestia, Call.txCall goTxHashBytes, Call.closeCelestia]) ∧
    countCalls Call.isOpenEth (verify envTxFail).2 = 0 ∧
    countCalls Call.isCloseEth (verify envTxFail).2 = 0 :=
  ⟨rfl, rfl, rfl⟩

/-- C6 amended: on every run, each connection is released exactly as often
as it was acquired — the Celestia connection on every exit path after
`http.New` succeeds, the Ethereum connection on every exit path after
`ethclient.Dial` succeeds (success, failure and panic paths alike). -/
theorem connectionsReleasedOnAllPaths (env : Env) :
    countCalls Call.isOpenCelestia (verify env).2 =
      countCalls Call.isCloseCelestia (verify env).2 ∧
    countCalls Call.isOpenEth (verify env).2 =
      countCalls Call.isCloseEth (verify env).2 :=
  ⟨(verifyShape env).2.2.1, (verifyShape env).2.2.2⟩

/-- C7: the share-proof request is parameterized exactly by the located
transaction's height and the computed range's start and end, and the
batch-inclusion request exactly by that height and the configured batch
boundaries — the full traces contain exactly one call of each kind, with
exactly those arguments. -/
theorem proofRequestsUseComputedParameters (env : Env) (tx : TxResult)
    (blk : Block) (r : ShareRange) (sp : ShareProofRes)
    (h1 : env.newHTTP = Except.ok ())
    (h2 : env.txQ goTxHashBytes = Except.ok tx)
    (h3 : env.blockQ tx.Height = Except.ok blk)
    (h4 : env.blobShareRange blk.Txs tx.Index blobIndex blk.VersionApp = Except.ok r)
    (h5 : env.proveShares (u64 tx.Height) (u64 r.Start) (u64 r.End) = Except.ok sp)
    (hsp : sp.VerifyProof = true) :
    filterCalls Call.isProveShares (verify env).2 =
      [Call.proveSharesCall (u64 tx.Height) (u64 r.Start) (u64 r.End)] ∧
    filterCalls Call.isDcProof (verify env).2 =
      [Call.dcProofCall (u64 tx.Height) dataCommitmentStartBlock
        dataCommitmentEndBlock] :=
  ⟨(afterShareVerified env tx blk r sp h1 h2 h3 h4 h5 hsp).1,
   (afterShareVerified env tx blk r sp h1 h2 h3 h4 h5 hsp).2.1⟩

/-- C7 witness: the parameterization theorem at a concrete successful run. -/
theorem proofRequestsUseComputedParametersWitness :
    filterCalls Call.isProveShares (verify envHappy).2 =
      [Call.proveSharesCall (u64 txW.Height) (u64 rW.Start) (u64 rW.End)] ∧
    filterCalls Call.isDcProof (verify envHappy).2 =
      [Call.dcProofCall (u64 txW.Height) dataCommitmentStartBlock
        dataCommitmentEndBlock] :=
  proofRequestsUseComputedParameters envHappy txW blkW rW { VerifyProof := true }
    rfl rfl rfl rfl rfl rfl

/-- C10: the compiled-in transaction hash decodes (it is a 64-character hex
string), so the malformed-identifier failure branch of `verify` is
unreachable: no run, over any environment, returns the hash-decode error. -/
theorem decodeBranchUnreachable :
    hexDecodeString txHash = Except.ok goTxHashBytes ∧
    ∀ env : Env, isDecodeFailure (verify env).1 = false :=
  ⟨hexDecode_txHash, fun env => (verifyShape env).1⟩

end Rollup
